import Mathlib

/-
Verification of the AI code-review script (`.github/scripts/ai_review.py`).

The script is embedded shallowly:
  * decoded JSON response bodies become the inductive type `Json`;
  * Python dynamic operations (`dict.get`, truthiness, subscripting,
    iteration) become explicit Lean functions; operations that would raise
    a Python exception return an `Except` error;
  * each `call*Api` function takes the would-be HTTP response as an
    explicit argument and records the URL it would POST to, so "number of
    network calls" is the length of the `requests` field of the outcome;
  * `main` takes the environment and the filesystem as explicit functions
    `String → Option String` and returns the printed lines, the issued
    requests and the contents written to `review_result.md` (if any).
-/

set_option autoImplicit false
set_option linter.unusedVariables false

namespace AiReview

/-- Decoded JSON values, as produced by `response.json()` in the script.
Numbers are modelled as integers: no claim concerns fractional payloads. -/
inductive Json where
  | null
  | bool (b : Bool)
  | num (n : Int)
  | str (s : String)
  | arr (items : List Json)
  | obj (fields : List (String × Json))

/-- First binding of `key` in an object's field list (Python dicts have
unique keys, so first-match lookup is exact). -/
def lookupField (fields : List (String × Json)) (key : String) : Option Json :=
  match fields with
  | [] => none
  | (k, v) :: rest => if k == key then some v else lookupField rest key

/-- Python truthiness of a decoded JSON value (`if not x`). -/
def Json.truthy : Json → Bool
  | .null => false
  | .bool b => b
  | .num n => n != 0
  | .str s => s != ""
  | .arr items => !items.isEmpty
  | .obj fields => !fields.isEmpty

/-- Python `x == "s"` where `x` is a decoded JSON value: true exactly when
`x` is the string `s`. -/
def Json.eqStr (j : Json) (s : String) : Bool :=
  match j with
  | .str t => t == s
  | _ => false

/-- Python `key in x` for a decoded JSON value; only dict receivers are
modelled (every body the script tests membership on is a JSON object). -/
def Json.hasKey (j : Json) (key : String) : Bool :=
  match j with
  | .obj fields => (lookupField fields key).isSome
  | _ => false

/-- True exactly on JSON objects (Python dicts). -/
def Json.isObj : Json → Bool
  | .obj _ => true
  | _ => false

/-- Whether a decoded JSON value is a dict whose `key` holds exactly the
string `val`; this is the test `x.get(key) == val` performed by the
response-flavor scan on dict elements. -/
def Json.fieldIsStr (j : Json) (key val : String) : Bool :=
  match j with
  | .obj fields =>
    match lookupField fields key with
    | some (.str t) => t == val
    | _ => false
  | _ => false

/-- Errors the adapter layer can raise.  The script raises `Exception`
with interpolated f-strings; the message prefix and the interpolated raw
decoded body are kept structurally. -/
inductive CallError where
  | httpError (status : Nat) (text : String)
  | parseError (msg : String) (body : Json)
  | valueError (apiType : String)
  | attributeError
  | typeError

/-- Python `x.get(key, dflt)`: field lookup with a default on dicts,
`AttributeError` on any other receiver. -/
def Json.dictGetD (j : Json) (key : String) (dflt : Json) : Except CallError Json :=
  match j with
  | .obj fields => .ok ((lookupField fields key).getD dflt)
  | _ => .error .attributeError

/-- Python `x[0]`; only list receivers are modelled (the script only
subscripts values it expects to be JSON arrays).  An empty array would be
an `IndexError`; the script always guards with a truthiness check first. -/
def Json.index0 : Json → Except CallError Json
  | .arr (x :: _) => .ok x
  | _ => .error .typeError

/-- Truthiness of an optional environment-variable value
(`if not os.environ.get(...)`: absent and empty string are both falsy). -/
def strOptFalsy : Option String → Bool
  | none => true
  | some s => s == ""

/-- The marker appended when a diff is cut (`ai_review.py` line 72). -/
def TRUNCATION_MARKER : String := "\n\n... (diff 过长，已截断)"

/-- Default `maxChars` of `truncateDiff` (`ai_review.py` line 67). -/
def TRUNCATE_DEFAULT_MAX : Nat := 60000

/-- `truncateDiff` (`ai_review.py` lines 67-72): keep the diff if it fits,
otherwise keep the first `maxChars` characters and append the marker. -/
def truncateDiff (diff : String) (maxChars : Nat) : String :=
  if diff.length ≤ maxChars then diff
  else String.mk (diff.data.take maxChars) ++ TRUNCATION_MARKER

/-- Python `s.rstrip("/")`: remove every trailing slash. -/
def pyRstripSlashes (s : String) : String :=
  String.mk ((s.data.reverse.dropWhile (fun c => c == '/')).reverse)

/-- Endpoint URL of the chat flavor (`ai_review.py` line 96). -/
def chatCompletionsUrl (baseUrl : String) : String :=
  pyRstripSlashes baseUrl ++ "/chat/completions"

/-- Endpoint URL of the messages flavor (`ai_review.py` line 147). -/
def messagesEndpointUrl (baseUrl : String) : String :=
  pyRstripSlashes baseUrl ++ "/messages"

/-- Endpoint URL of the response flavor (`ai_review.py` line 196). -/
def responsesEndpointUrl (baseUrl : String) : String :=
  pyRstripSlashes baseUrl ++ "/responses"

/-- Modelled from the spec claim wording, for comparison with the code:
strip one trailing slash, if present, then the caller appends the suffix. -/
def stripSingleTrailingSlash (s : String) : String :=
  if s.data.getLast? = some '/' then String.mk s.data.dropLast else s

/-- The HTTP response the single outbound POST would produce: status code,
raw body text (`response.text`) and decoded body (`response.json()`). -/
structure HttpResponse where
  status : Nat
  text : String
  json : Json

/-- Observable outcome of an adapter call: lines printed, URLs POSTed to
(one entry per network call), and the returned text or the raised error. -/
structure CallOutcome where
  printed : List String
  requests : List String
  result : Except CallError Json

/-- Response-structure check of `callChatApi` (`ai_review.py` lines
120-123): require a truthy `choices`, then `choices[0].get("message",
{}).get("content", "")`. -/
def chatExtract (data : Json) : Except CallError Json := do
  let choices ← data.dictGetD "choices" (.arr [])
  if !choices.truthy then
    .error (.parseError "API 响应缺少 choices 字段" data)
  else do
    let c0 ← choices.index0
    let msg ← c0.dictGetD "message" (.obj [])
    msg.dictGetD "content" (.str "")

/-- Response-structure check of `callMessagesApi` (`ai_review.py` lines
169-172): require a truthy `content`, then `content[0].get("text", "")`. -/
def messagesExtract (data : Json) : Except CallError Json := do
  let content ← data.dictGetD "content" (.arr [])
  if !content.truthy then
    .error (.parseError "API 响应缺少 content 字段" data)
  else do
    let c0 ← content.index0
    c0.dictGetD "text" (.str "")

/-- Inner loop of `callResponseApi` (`ai_review.py` lines 226-228):
`for block in content: if block.get("type") == "output_text": return
block.get("text", "")`.  `.ok none` means the loop fell through. -/
def scanContentBlocks (blocks : List Json) : Except CallError (Option Json) :=
  match blocks with
  | [] => .ok none
  | b :: rest => do
    let t ← b.dictGetD "type" .null
    if t.eqStr "output_text" then do
      let txt ← b.dictGetD "text" (.str "")
      pure (some txt)
    else
      scanContentBlocks rest

/-- Outer loop of `callResponseApi` (`ai_review.py` lines 222-228): scan
`output` for items of type `message` and return the first `output_text`
block found in any of them.  Iterating a non-empty non-list `content`
value would hit `.get` on a non-dict element, hence `attributeError`;
iterating a non-iterable value is a `typeError`. -/
def scanOutputItems (items : List Json) : Except CallError (Option Json) :=
  match items with
  | [] => .ok none
  | item :: rest => do
    let t ← item.dictGetD "type" .null
    if t.eqStr "message" then do
      let content ← item.dictGetD "content" (.arr [])
      match content with
      | .arr blocks =>
        match ← scanContentBlocks blocks with
        | some txt => pure (some txt)
        | none => scanOutputItems rest
      | .str s => if s == "" then scanOutputItems rest else .error .attributeError
      | .obj fields => if fields.isEmpty then scanOutputItems rest else .error .attributeError
      | _ => .error .typeError
    else
      scanOutputItems rest

/-- Fallback branch of `callResponseApi` (`ai_review.py` lines 220-229):
`output = data.get("output", [])`; scan it when it is a truthy list,
otherwise (or when the scan falls through) raise the parse error. -/
def responseExtractOutput (data : Json) : Except CallError Json := do
  let output ← data.dictGetD "output" (.arr [])
  match output with
  | .arr items =>
    if items.isEmpty then
      .error (.parseError "无法解析 Responses API 响应" data)
    else do
      match ← scanOutputItems items with
      | some txt => pure txt
      | none => .error (.parseError "无法解析 Responses API 响应" data)
  | _ => .error (.parseError "无法解析 Responses API 响应" data)

/-- Response-structure handling of `callResponseApi` (`ai_review.py`
lines 215-229): the top-level `output_text` field when present, else the
`output` scan. -/
def responseExtract (data : Json) : Except CallError Json :=
  match data with
  | .obj fields =>
    match lookupField fields "output_text" with
    | some v => .ok v
    | none => responseExtractOutput (.obj fields)
  | _ => responseExtractOutput data

/-- `callChatApi` (`ai_review.py` lines 75-123): one POST to the chat
completions endpoint; non-200 raises an HTTP error, otherwise the body is
decoded and `chatExtract` applied.  Headers and payload carry no
observable behaviour for the verified claims and are not modelled. -/
def callChatApi (apiKey baseUrl model systemPrompt userMessage : String)
    (resp : HttpResponse) : CallOutcome :=
  let url := chatCompletionsUrl baseUrl
  if resp.status ≠ 200 then
    ⟨[], [url], .error (.httpError resp.status resp.text)⟩
  else
    ⟨[], [url], chatExtract resp.json⟩

/-- `callMessagesApi` (`ai_review.py` lines 126-172): one POST to the
messages endpoint; non-200 raises an HTTP error, otherwise
`messagesExtract` is applied to the decoded body. -/
def callMessagesApi (apiKey baseUrl model systemPrompt userMessage : String)
    (resp : HttpResponse) : CallOutcome :=
  let url := messagesEndpointUrl baseUrl
  if resp.status ≠ 200 then
    ⟨[], [url], .error (.httpError resp.status resp.text)⟩
  else
    ⟨[], [url], messagesExtract resp.json⟩

/-- `callResponseApi` (`ai_review.py` lines 175-229): one POST to the
responses endpoint; non-200 raises an HTTP error, otherwise
`responseExtract` is applied to the decoded body. -/
def callResponseApi (apiKey baseUrl model systemPrompt userMessage : String)
    (resp : HttpResponse) : CallOutcome :=
  let url := responsesEndpointUrl baseUrl
  if resp.status ≠ 200 then
    ⟨[], [url], .error (.httpError resp.status resp.text)⟩
  else
    ⟨[], [url], responseExtract resp.json⟩

/-- `VALID_API_TYPES` (`ai_review.py` line 232). -/
def VALID_API_TYPES : List String := ["chat", "messages", "response"]

/-- `callLlmApi` (`ai_review.py` lines 235-267): reject an unrecognized
`apiType` with a `ValueError` before anything else, otherwise print the
chosen type and dispatch to the flavor's call function. -/
def callLlmApi (apiKey baseUrl model systemPrompt userMessage apiType : String)
    (resp : HttpResponse) : CallOutcome :=
  if apiType ∉ VALID_API_TYPES then
    ⟨[], [], .error (.valueError apiType)⟩
  else
    let sub :=
      if apiType == "messages" then
        callMessagesApi apiKey baseUrl model systemPrompt userMessage resp
      else if apiType == "response" then
        callResponseApi apiKey baseUrl model systemPrompt userMessage resp
      else
        callChatApi apiKey baseUrl model systemPrompt userMessage resp
    ⟨("Using API type: " ++ apiType) :: sub.printed, sub.requests, sub.result⟩

/-- `SYSTEM_PROMPT` (`ai_review.py` lines 11-49), with the `format`
placeholder kept literally. -/
def SYSTEM_PROMPT : String :=
  "你是一个资深的代码审查专家。请审查以下 Pull Request 的代码变更。\n\n你需要关注以下方面：\n1. **潜在的 Bug 和边缘情况** - 未处理的异常、空值检查、边界条件等\n2. **安全漏洞** - SQL注入、XSS、敏感信息泄露、不安全的依赖等\n3. **性能问题** - 不必要的循环、内存泄漏、N+1查询等\n4. **代码质量** - 可读性、命名规范、重复代码、过于复杂的逻辑\n5. **最佳实践** - 是否遵循该语言/框架的最佳实践\n\n**请忽略以下文件的变更，不要对它们进行审查：**\n- requirements.txt、requirements*.txt 等依赖声明文件\n- 这些文件只是依赖版本声明，不需要代码审查\n\n请用中文回复，格式如下：\n- 如果发现问题，列出具体的问题和建议，引用具体的代码行\n- 如果代码质量良好，简单说明即可\n- 不要过度挑剔，只关注真正重要的问题\n\n回复格式：\n### 🤖 AI Code Review\n\n**审查的提交:** `{commit_sha}`\n\n#### 发现的问题\n\n（如果有问题，按严重程度列出）\n\n#### 总结\n\n（简短总结代码质量）\n\n---\n<details>\n<summary>ℹ️ 关于此审查</summary>\n\n此审查由 AI 自动生成，仅供参考。如有误报请忽略。\n\n</details>\n"

/-- `getDiffContent` (`ai_review.py` lines 52-64): read the file named by
the `diff_file` variable (default `pr_diff.txt`), fall back to
`pr_diff.txt`, and return empty text when neither exists.  `files` maps a
path to its contents when the file exists. -/
def getDiffContent (env files : String → Option String) : String :=
  let diffFile := (env "diff_file").getD "pr_diff.txt"
  match files diffFile with
  | some content => content
  | none =>
    match files "pr_diff.txt" with
    | some content => content
    | none => ""

/-- The user-message f-string of `main` (`ai_review.py` lines 302-315);
`prBody or "无描述"` substitutes the placeholder for an empty body. -/
def buildUserMessage (prTitle prBody diffContent : String) : String :=
  "## Pull Request 信息\n\n**标题:** " ++ prTitle ++ "\n\n**描述:**\n" ++
    (if prBody == "" then "无描述" else prBody) ++
    "\n\n## 代码变更 (diff)\n\n```diff\n" ++ diffContent ++
    "\n```\n\n请审查以上代码变更。"

/-- Observable outcome of one run of `main`: lines printed, URLs POSTed
to, and the contents written to `review_result.md` (`none` when the file
is not written). -/
structure MainOutcome where
  printed : List String
  requests : List String
  output : Option String

/-- `main` (`ai_review.py` lines 270-336).  The environment and the
filesystem are passed explicitly; `resp` is the HTTP response the single
outbound POST would produce.  A successful call whose extracted value is
not a string would make `f.write` raise a `TypeError`, caught by the same
`except` block as adapter errors; the `except` branch's diagnostic is
modelled by its fixed prefix. -/
def main (env files : String → Option String) (resp : HttpResponse) : MainOutcome :=
  if strOptFalsy (env "LLM_API_KEY") then
    ⟨["Error: LLM_API_KEY not set"], [], none⟩
  else if strOptFalsy (env "LLM_BASE_URL") then
    ⟨["Error: LLM_BASE_URL not set"], [], none⟩
  else if strOptFalsy (env "LLM_MODEL") then
    ⟨["Error: LLM_MODEL not set"], [], none⟩
  else
    let apiType := (env "LLM_API_TYPE").getD "chat"
    let prTitle := (env "PR_TITLE").getD ""
    let prBody := (env "PR_BODY").getD ""
    let commitSha := ((env "GITHUB_SHA").getD "unknown").take 10
    let diffContent := getDiffContent env files
    if diffContent == "" then
      ⟨["No diff content found, skipping review"], [], none⟩
    else
      let diffContent := truncateDiff diffContent TRUNCATE_DEFAULT_MAX
      let userMessage := buildUserMessage prTitle prBody diffContent
      let systemPrompt := SYSTEM_PROMPT.replace "{commit_sha}" commitSha
      let co := callLlmApi ((env "LLM_API_KEY").getD "") ((env "LLM_BASE_URL").getD "")
        ((env "LLM_MODEL").getD "") systemPrompt userMessage apiType resp
      match co.result with
      | .ok (.str content) =>
        ⟨co.printed ++ ["Review completed successfully!", content], co.requests, some content⟩
      | .ok _ => ⟨co.printed ++ ["Error calling LLM API"], co.requests, none⟩
      | .error _ => ⟨co.printed ++ ["Error calling LLM API"], co.requests, none⟩

/-- Dropping leading slashes ignores a block of slashes prepended to the
list (list-level core of the trailing-slash invariance). -/
theorem dropWhile_slash_replicate (n : Nat) (l : List Char) :
    (List.replicate n '/' ++ l).dropWhile (fun c => c == '/') =
      l.dropWhile (fun c => c == '/') := by
  induction n with
  | zero => simp
  | succ k ih => simp [List.replicate_succ, List.dropWhile, ih]

/-- `rstrip("/")` ignores any block of trailing slashes. -/
theorem pyRstripSlashes_append_slashes (s : String) (n : Nat) :
    pyRstripSlashes (s ++ String.mk (List.replicate n '/')) = pyRstripSlashes s := by
  have hdata : (s ++ String.mk (List.replicate n '/')).data =
      s.data ++ List.replicate n '/' :=
    String.data_append s (String.mk (List.replicate n '/'))
  simp [pyRstripSlashes, hdata, List.reverse_append, dropWhile_slash_replicate]

/-- C1: `truncateDiff` keeps a diff of at most `maxChars` characters
unchanged; a longer diff becomes exactly its first `maxChars` characters
followed by the fixed truncation marker, so the result is longer than
`maxChars`. -/
theorem truncateDiff_correct (diff : String) (maxChars : Nat) :
    (diff.length ≤ maxChars → truncateDiff diff maxChars = diff) ∧
    (maxChars < diff.length →
      truncateDiff diff maxChars = String.mk (diff.data.take maxChars) ++ TRUNCATION_MARKER ∧
      (String.mk (diff.data.take maxChars)).length = maxChars ∧
      maxChars < (truncateDiff diff maxChars).length) := by
  constructor
  · intro h
    simp [truncateDiff, h]
  · intro h
    have hnle : ¬ diff.length ≤ maxChars := Nat.not_le.mpr h
    have heq : truncateDiff diff maxChars =
        String.mk (diff.data.take maxChars) ++ TRUNCATION_MARKER := by
      simp [truncateDiff, hnle]
    have hlen : (String.mk (diff.data.take maxChars)).length = maxChars := by
      show (diff.data.take maxChars).length = maxChars
      rw [List.length_take]
      exact Nat.min_eq_left (Nat.le_of_lt h)
    refine ⟨heq, hlen, ?_⟩
    rw [heq, String.length_append, hlen]
    have hm : 0 < TRUNCATION_MARKER.length := by decide
    omega

/-- C1 witness: a five-character diff is kept at budget 5 and cut at
budget 3, with the cut result longer than 3. -/
theorem truncateDiff_correct_witness :
    truncateDiff "abcde" 5 = "abcde" ∧
    truncateDiff "abcde" 3 = String.mk ("abcde".data.take 3) ++ TRUNCATION_MARKER ∧
    3 < (truncateDiff "abcde" 3).length := by
  refine ⟨(truncateDiff_correct "abcde" 5).1 (by decide), ?_, ?_⟩
  · exact ((truncateDiff_correct "abcde" 3).2 (by decide)).1
  · exact ((truncateDiff_correct "abcde" 3).2 (by decide)).2.2

/-- C2 counterexample: the code strips every trailing slash
(`rstrip("/")`), not a single one, so on a base URL ending in two slashes
the built endpoint differs from the single-slash-stripping description. -/
theorem endpointUrl_single_strip_cex :
    chatCompletionsUrl "http://h//" ≠
      stripSingleTrailingSlash "http://h//" ++ "/chat/completions" := by
  decide

/-- C2 (amended): every endpoint URL is built by stripping all trailing
slashes from the base URL and appending the flavor's suffix; in
particular a base URL with a trailing slash and the same base URL without
it yield the same final URL, and any block of trailing slashes is
ignored. -/
theorem endpointUrl_trailing_slash_invariant (baseUrl : String) (n : Nat) :
    chatCompletionsUrl (baseUrl ++ "/") = chatCompletionsUrl baseUrl ∧
    messagesEndpointUrl (baseUrl ++ "/") = messagesEndpointUrl baseUrl ∧
    responsesEndpointUrl (baseUrl ++ "/") = responsesEndpointUrl baseUrl ∧
    pyRstripSlashes (baseUrl ++ String.mk (List.replicate n '/')) = pyRstripSlashes baseUrl := by
  have h1 := pyRstripSlashes_append_slashes baseUrl 1
  have hslash : String.mk (List.replicate 1 '/') = "/" := rfl
  rw [hslash] at h1
  exact ⟨by simp [chatCompletionsUrl, h1], by simp [messagesEndpointUrl, h1],
    by simp [responsesEndpointUrl, h1], pyRstripSlashes_append_slashes baseUrl n⟩

/-- C3: an `apiType` outside the recognized set makes `callLlmApi` fail
with a `ValueError` naming the type, with nothing printed (the rejection
precedes the dispatch print) and zero network requests. -/
theorem callLlmApi_invalid_type (apiKey baseUrl model systemPrompt userMessage apiType : String)
    (resp : HttpResponse) (h : apiType ∉ VALID_API_TYPES) :
    callLlmApi apiKey baseUrl model systemPrompt userMessage apiType resp =
      ⟨[], [], .error (.valueError apiType)⟩ := by
  simp [callLlmApi, h]

/-- C3 witness: the flavor string `bogus` is rejected with zero requests. -/
theorem callLlmApi_invalid_type_witness :
    "bogus" ∉ VALID_API_TYPES ∧
    callLlmApi "k" "u" "m" "s" "p" "bogus" ⟨200, "", .obj []⟩ =
      ⟨[], [], .error (.valueError "bogus")⟩ :=
  ⟨by decide, callLlmApi_invalid_type "k" "u" "m" "s" "p" "bogus" ⟨200, "", .obj []⟩ (by decide)⟩

/-- C5: on a 200 chat-flavor response whose body has a non-empty
`choices` array whose first element carries a `message` object, the
adapter returns `choices[0].message.content` (the empty string if
`content` is absent). -/
theorem callChatApi_extracts_message_content
    (apiKey baseUrl model systemPrompt userMessage bodyText : String)
    (fields c0fields mfields : List (String × Json)) (rest : List Json)
    (hchoices : lookupField fields "choices" = some (.arr (Json.obj c0fields :: rest)))
    (hmsg : lookupField c0fields "message" = some (.obj mfields)) :
    (callChatApi apiKey baseUrl model systemPrompt userMessage
        ⟨200, bodyText, .obj fields⟩).result =
      .ok ((lookupField mfields "content").getD (.str "")) := by
  simp [callChatApi, chatExtract, Json.dictGetD, hchoices, hmsg, Json.truthy, Json.index0,
    Bind.bind, Except.bind, Pure.pure, Except.pure]

/-- C5 witness: the mocked chat body with content `LGTM` yields exactly
`LGTM`. -/
theorem callChatApi_extracts_message_content_witness :
    (callChatApi "k" "u" "m" "s" "p"
        ⟨200, "", .obj [("choices",
          .arr [.obj [("message", .obj [("content", .str "LGTM")])]])]⟩).result
      = .ok (.str "LGTM") :=
  callChatApi_extracts_message_content "k" "u" "m" "s" "p" ""
    [("choices", .arr [.obj [("message", .obj [("content", .str "LGTM")])]])]
    [("message", .obj [("content", .str "LGTM")])]
    [("content", .str "LGTM")] [] rfl rfl

/-- C9: a non-empty `choices` whose first element is a dict without
`message`, or with a `message` dict without `content`, makes the chat
adapter return the empty string successfully; a non-empty `content`
whose first element is a dict without `text` does the same for the
messages adapter. -/
theorem adapter_missing_nested_field_empty_string
    (k b m s u t1 t2 t3 : String)
    (cf1 c0f1 : List (String × Json)) (r1 : List Json)
    (cf2 c0f2 mf2 : List (String × Json)) (r2 : List Json)
    (mef m0f : List (String × Json)) (r3 : List Json)
    (h1a : lookupField cf1 "choices" = some (.arr (Json.obj c0f1 :: r1)))
    (h1b : lookupField c0f1 "message" = none)
    (h2a : lookupField cf2 "choices" = some (.arr (Json.obj c0f2 :: r2)))
    (h2b : lookupField c0f2 "message" = some (.obj mf2))
    (h2c : lookupField mf2 "content" = none)
    (h3a : lookupField mef "content" = some (.arr (Json.obj m0f :: r3)))
    (h3b : lookupField m0f "text" = none) :
    (callChatApi k b m s u ⟨200, t1, .obj cf1⟩).result = .ok (.str "") ∧
    (callChatApi k b m s u ⟨200, t2, .obj cf2⟩).result = .ok (.str "") ∧
    (callMessagesApi k b m s u ⟨200, t3, .obj mef⟩).result = .ok (.str "") := by
  refine ⟨?_, ?_, ?_⟩
  · simp [callChatApi, chatExtract, Json.dictGetD, h1a, h1b, Json.truthy, Json.index0,
      Bind.bind, Except.bind, lookupField]
  · simp [callChatApi, chatExtract, Json.dictGetD, h2a, h2b, h2c, Json.truthy, Json.index0,
      Bind.bind, Except.bind, Pure.pure, Except.pure]
  · simp [callMessagesApi, messagesExtract, Json.dictGetD, h3a, h3b, Json.truthy, Json.index0,
      Bind.bind, Except.bind, Pure.pure, Except.pure]

/-- C9 witness: concrete bodies whose first array element lacks the
nested field all yield the empty string. -/
theorem adapter_missing_nested_field_empty_string_witness :
    (callChatApi "k" "u" "m" "s" "p"
        ⟨200, "", .obj [("choices", .arr [.obj []])]⟩).result = .ok (.str "") ∧
    (callChatApi "k" "u" "m" "s" "p"
        ⟨200, "", .obj [("choices", .arr [.obj [("message", .obj [("role", .str "assistant")])]])]⟩).result
      = .ok (.str "") ∧
    (callMessagesApi "k" "u" "m" "s" "p"
        ⟨200, "", .obj [("content", .arr [.obj [("type", .str "text")]])]⟩).result
      = .ok (.str "") :=
  adapter_missing_nested_field_empty_string "k" "u" "m" "s" "p" "" "" ""
    [("choices", .arr [.obj []])] [] []
    [("choices", .arr [.obj [("message", .obj [("role", .str "assistant")])]])]
    [("message", .obj [("role", .str "assistant")])] [("role", .str "assistant")] []
    [("content", .arr [.obj [("type", .str "text")]])] [("type", .str "text")] []
    rfl rfl rfl rfl rfl rfl rfl

/-- C6: a 200 response whose expected top-level field is missing or empty
(`choices` for chat, `content` for messages, and for the response flavor
no `output_text` together with a missing `output` or a scan that finds no
message/output_text block) fails with a parse error carrying the raw
decoded body. -/
theorem adapter_missing_top_field_parse_error
    (k b m s u t1 t2 t3 : String)
    (cf mf rf : List (String × Json)) (routItems : List Json)
    (hchat : lookupField cf "choices" = none ∨ lookupField cf "choices" = some (.arr []))
    (hmsgs : lookupField mf "content" = none ∨ lookupField mf "content" = some (.arr []))
    (hrA : lookupField rf "output_text" = none)
    (hrB : lookupField rf "output" = none ∨
           (lookupField rf "output" = some (.arr routItems) ∧
            scanOutputItems routItems = .ok none)) :
    (callChatApi k b m s u ⟨200, t1, .obj cf⟩).result =
      .error (.parseError "API 响应缺少 choices 字段" (.obj cf)) ∧
    (callMessagesApi k b m s u ⟨200, t2, .obj mf⟩).result =
      .error (.parseError "API 响应缺少 content 字段" (.obj mf)) ∧
    (callResponseApi k b m s u ⟨200, t3, .obj rf⟩).result =
      .error (.parseError "无法解析 Responses API 响应" (.obj rf)) := by
  refine ⟨?_, ?_, ?_⟩
  · rcases hchat with hc | hc <;>
      simp [callChatApi, chatExtract, Json.dictGetD, hc, Json.truthy,
        Bind.bind, Except.bind, Pure.pure, Except.pure]
  · rcases hmsgs with hm | hm <;>
      simp [callMessagesApi, messagesExtract, Json.dictGetD, hm, Json.truthy,
        Bind.bind, Except.bind, Pure.pure, Except.pure]
  · rcases hrB with hr | ⟨hr, hscan⟩
    · simp [callResponseApi, responseExtract, responseExtractOutput, Json.dictGetD,
        hrA, hr, Bind.bind, Except.bind, Pure.pure, Except.pure]
    · cases routItems with
      | nil =>
        simp [callResponseApi, responseExtract, responseExtractOutput, Json.dictGetD,
          hrA, hr, Bind.bind, Except.bind, Pure.pure, Except.pure]
      | cons i rest =>
        simp [callResponseApi, responseExtract, responseExtractOutput, Json.dictGetD,
          hrA, hr, hscan, Bind.bind, Except.bind, Pure.pure, Except.pure]

/-- C6 witness: concrete bodies with the top-level field missing or empty
for each flavor all fail with the parse error carrying the body. -/
theorem adapter_missing_top_field_parse_error_witness :
    (callChatApi "k" "u" "m" "s" "p" ⟨200, "", .obj []⟩).result =
      .error (.parseError "API 响应缺少 choices 字段" (.obj [])) ∧
    (callMessagesApi "k" "u" "m" "s" "p" ⟨200, "", .obj [("content", .arr [])]⟩).result =
      .error (.parseError "API 响应缺少 content 字段" (.obj [("content", .arr [])])) ∧
    (callResponseApi "k" "u" "m" "s" "p"
        ⟨200, "", .obj [("output", .arr [.obj [("type", .str "reasoning")]])]⟩).result =
      .error (.parseError "无法解析 Responses API 响应"
        (.obj [("output", .arr [.obj [("type", .str "reasoning")]])])) :=
  adapter_missing_top_field_parse_error "k" "u" "m" "s" "p" "" "" ""
    [] [("content", .arr [])] [("output", .arr [.obj [("type", .str "reasoning")]])]
    [.obj [("type", .str "reasoning")]]
    (Or.inl rfl) (Or.inr rfl) rfl (Or.inr ⟨rfl, rfl⟩)

/-- The truthiness test the scan loops perform on a dict element's
defaulted `type` field agrees with `Json.fieldIsStr`. -/
theorem eqStr_getD_eq_fieldIsStr (f : List (String × Json)) (key val : String) :
    ((lookupField f key).getD Json.null).eqStr val = Json.fieldIsStr (.obj f) key val := by
  cases h : lookupField f key with
  | none => simp [h, Json.fieldIsStr, Json.eqStr]
  | some v => cases v <;> simp [h, Json.fieldIsStr, Json.eqStr]

/-- The inner loop returns the `text` of the first `output_text`-typed
block when the blocks are dicts and such a block exists. -/
theorem scanContentBlocks_find (blocks : List Json) (bfields : List (String × Json))
    (hobjs : ∀ bl ∈ blocks, bl.isObj = true)
    (hfind : blocks.find? (fun bl => bl.fieldIsStr "type" "output_text") = some (.obj bfields)) :
    scanContentBlocks blocks = .ok (some ((lookupField bfields "text").getD (.str ""))) := by
  induction blocks with
  | nil => simp at hfind
  | cons bl rest ih =>
    have hb : bl.isObj = true := hobjs bl (List.mem_cons_self bl rest)
    cases bl with
    | obj f =>
      by_cases hp : Json.fieldIsStr (.obj f) "type" "output_text" = true
      · rw [List.find?_cons_of_pos rest hp] at hfind
        have hf : f = bfields := by
          injection hfind with hf
          injection hf
        subst hf
        simp [scanContentBlocks, Json.dictGetD, eqStr_getD_eq_fieldIsStr, hp,
          Bind.bind, Except.bind, Pure.pure, Except.pure]
      · rw [List.find?_cons_of_neg rest hp] at hfind
        have hrec := ih (fun x hx => hobjs x (List.mem_cons_of_mem _ hx)) hfind
        simp [scanContentBlocks, Json.dictGetD, eqStr_getD_eq_fieldIsStr, hp, hrec,
          Bind.bind, Except.bind, Pure.pure, Except.pure]
    | null => simp [Json.isObj] at hb
    | bool b => simp [Json.isObj] at hb
    | num n => simp [Json.isObj] at hb
    | str s => simp [Json.isObj] at hb
    | arr xs => simp [Json.isObj] at hb

/-- The outer loop returns the `text` of the first `output_text` block of
the first `message`-typed item, when the items and that item's blocks are
dicts and such a block exists in that item. -/
theorem scanOutputItems_find (items : List Json) (mfields bfields : List (String × Json))
    (blocks : List Json)
    (hobjs : ∀ i ∈ items, i.isObj = true)
    (hbobjs : ∀ bl ∈ blocks, bl.isObj = true)
    (hfind : items.find? (fun i => i.fieldIsStr "type" "message") = some (.obj mfields))
    (hcontent : lookupField mfields "content" = some (.arr blocks))
    (hbfind : blocks.find? (fun bl => bl.fieldIsStr "type" "output_text") = some (.obj bfields)) :
    scanOutputItems items = .ok (some ((lookupField bfields "text").getD (.str ""))) := by
  induction items with
  | nil => simp at hfind
  | cons i rest ih =>
    have hi : i.isObj = true := hobjs i (List.mem_cons_self i rest)
    cases i with
    | obj f =>
      by_cases hp : Json.fieldIsStr (.obj f) "type" "message" = true
      · rw [List.find?_cons_of_pos rest hp] at hfind
        have hf : f = mfields := by
          injection hfind with hf
          injection hf
        subst hf
        have hinner := scanContentBlocks_find blocks bfields hbobjs hbfind
        simp [scanOutputItems, Json.dictGetD, eqStr_getD_eq_fieldIsStr, hp, hcontent,
          hinner, Bind.bind, Except.bind, Pure.pure, Except.pure]
      · rw [List.find?_cons_of_neg rest hp] at hfind
        have hrec := ih (fun x hx => hobjs x (List.mem_cons_of_mem _ hx)) hfind
        simp [scanOutputItems, Json.dictGetD, eqStr_getD_eq_fieldIsStr, hp, hrec,
          Bind.bind, Except.bind, Pure.pure, Except.pure]
    | null => simp [Json.isObj] at hi
    | bool b => simp [Json.isObj] at hi
    | num n => simp [Json.isObj] at hi
    | str s => simp [Json.isObj] at hi
    | arr xs => simp [Json.isObj] at hi

/-- C4: on a 200 response-flavor body the adapter returns the top-level
`output_text` field when present; otherwise it scans `output` for the
first `message`-typed item and returns the `text` of the first
`output_text` block found starting at it. -/
theorem callResponseApi_extraction (k b m s u t0 t1 : String) (v : Json)
    (pfields fields mfields bfields : List (String × Json)) (items blocks : List Json) :
    (lookupField pfields "output_text" = some v →
      (callResponseApi k b m s u ⟨200, t0, .obj pfields⟩).result = .ok v) ∧
    (lookupField fields "output_text" = none →
     lookupField fields "output" = some (.arr items) →
     (∀ i ∈ items, i.isObj = true) →
     (∀ bl ∈ blocks, bl.isObj = true) →
     items.find? (fun i => i.fieldIsStr "type" "message") = some (.obj mfields) →
     lookupField mfields "content" = some (.arr blocks) →
     blocks.find? (fun bl => bl.fieldIsStr "type" "output_text") = some (.obj bfields) →
     (callResponseApi k b m s u ⟨200, t1, .obj fields⟩).result =
       .ok ((lookupField bfields "text").getD (.str ""))) := by
  constructor
  · intro hv
    simp [callResponseApi, responseExtract, hv]
  · intro hno hout hobjs hbobjs hfind hcontent hbfind
    have hscan := scanOutputItems_find items mfields bfields blocks hobjs hbobjs
      hfind hcontent hbfind
    cases items with
    | nil => simp at hfind
    | cons i rest =>
      simp [callResponseApi, responseExtract, responseExtractOutput, Json.dictGetD,
        hno, hout, hscan, Bind.bind, Except.bind, Pure.pure, Except.pure]

/-- C4 witness: the mocked body with one message item carrying one
`output_text` block yields exactly `OK`; a top-level `output_text` is
returned directly. -/
theorem callResponseApi_extraction_witness :
    (callResponseApi "k" "u" "m" "s" "p"
        ⟨200, "", .obj [("output_text", .str "direct")]⟩).result = .ok (.str "direct") ∧
    (callResponseApi "k" "u" "m" "s" "p"
        ⟨200, "", .obj [("output", .arr [.obj [("type", .str "message"),
          ("content", .arr [.obj [("type", .str "output_text"),
            ("text", .str "OK")]])]])]⟩).result = .ok (.str "OK") := by
  have h := callResponseApi_extraction "k" "u" "m" "s" "p" "" "" (.str "direct")
    [("output_text", .str "direct")]
    [("output", .arr [.obj [("type", .str "message"),
      ("content", .arr [.obj [("type", .str "output_text"), ("text", .str "OK")]])]])]
    [("type", .str "message"),
      ("content", .arr [.obj [("type", .str "output_text"), ("text", .str "OK")]])]
    [("type", .str "output_text"), ("text", .str "OK")]
    [.obj [("type", .str "message"),
      ("content", .arr [.obj [("type", .str "output_text"), ("text", .str "OK")]])]]
    [.obj [("type", .str "output_text"), ("text", .str "OK")]]
  exact ⟨h.1 rfl, h.2 rfl rfl (by decide) (by decide) rfl rfl rfl⟩

/-- C7: when the API key, base URL or model is absent from the
environment, `main` writes no output file, issues no network request,
prints exactly one diagnostic starting with `Error:`, and its outcome
does not depend on any would-be HTTP response. -/
theorem main_missing_required_config (env files : String → Option String)
    (resp resp' : HttpResponse)
    (h : env "LLM_API_KEY" = none ∨ env "LLM_BASE_URL" = none ∨ env "LLM_MODEL" = none) :
    (main env files resp).output = none ∧ (main env files resp).requests = [] ∧
    (∃ d, (main env files resp).printed = [d] ∧ d.take 6 = "Error:") ∧
    main env files resp = main env files resp' := by
  by_cases h1 : strOptFalsy (env "LLM_API_KEY") = true
  · refine ⟨?_, ?_, ⟨"Error: LLM_API_KEY not set", ?_, by decide⟩, ?_⟩ <;> simp [main, h1]
  · by_cases h2 : strOptFalsy (env "LLM_BASE_URL") = true
    · refine ⟨?_, ?_, ⟨"Error: LLM_BASE_URL not set", ?_, by decide⟩, ?_⟩ <;>
        simp [main, h1, h2]
    · by_cases h3 : strOptFalsy (env "LLM_MODEL") = true
      · refine ⟨?_, ?_, ⟨"Error: LLM_MODEL not set", ?_, by decide⟩, ?_⟩ <;>
          simp [main, h1, h2, h3]
      · exfalso
        rcases h with h | h | h
        · exact h1 (by simp [h, strOptFalsy])
        · exact h2 (by simp [h, strOptFalsy])
        · exact h3 (by simp [h, strOptFalsy])

/-- C7 witness: a fully empty environment produces no output, no request
and a single `Error:` diagnostic. -/
theorem main_missing_required_config_witness :
    (main (fun _ => none) (fun _ => none) ⟨200, "", .obj []⟩).output = none ∧
    (main (fun _ => none) (fun _ => none) ⟨200, "", .obj []⟩).requests = [] ∧
    (∃ d, (main (fun _ => none) (fun _ => none) ⟨200, "", .obj []⟩).printed = [d] ∧
      d.take 6 = "Error:") :=
  let h := main_missing_required_config (fun _ => none) (fun _ => none)
    ⟨200, "", .obj []⟩ ⟨500, "boom", .obj []⟩ (Or.inl rfl)
  ⟨h.1, h.2.1, h.2.2.1⟩

/-- C8: when the loaded diff content is empty, `main` issues no network
request, writes no output file, and its outcome does not depend on any
would-be HTTP response. -/
theorem main_empty_diff_no_call_no_output (env files : String → Option String)
    (resp resp' : HttpResponse) (h : getDiffContent env files = "") :
    (main env files resp).requests = [] ∧ (main env files resp).output = none ∧
    main env files resp = main env files resp' := by
  by_cases h1 : strOptFalsy (env "LLM_API_KEY") = true
  · refine ⟨?_, ?_, ?_⟩ <;> simp [main, h1]
  · by_cases h2 : strOptFalsy (env "LLM_BASE_URL") = true
    · refine ⟨?_, ?_, ?_⟩ <;> simp [main, h1, h2]
    · by_cases h3 : strOptFalsy (env "LLM_MODEL") = true
      · refine ⟨?_, ?_, ?_⟩ <;> simp [main, h1, h2, h3]
      · refine ⟨?_, ?_, ?_⟩ <;> simp [main, h1, h2, h3, h]

/-- C8 witness: configured environment but no diff file on disk gives no
request and no output. -/
theorem main_empty_diff_no_call_no_output_witness :
    getDiffContent (fun _ => some "x") (fun _ => none) = "" ∧
    (main (fun _ => some "x") (fun _ => none) ⟨200, "", .obj []⟩).requests = [] ∧
    (main (fun _ => some "x") (fun _ => none) ⟨200, "", .obj []⟩).output = none :=
  let h := main_empty_diff_no_call_no_output (fun _ => some "x") (fun _ => none)
    ⟨200, "", .obj []⟩ ⟨500, "boom", .obj []⟩ rfl
  ⟨rfl, h.1, h.2.1⟩

/-- C10: a required configuration variable set to the empty string is
treated exactly like an absent one: `main` has the same outcome (hence
the same diagnostic) as on any environment that agrees elsewhere but
lacks the variable, writes no output file and issues no request. -/
theorem main_empty_var_like_absent (env envAbsent files : String → Option String)
    (resp : HttpResponse) (v : String)
    (hv : v = "LLM_API_KEY" ∨ v = "LLM_BASE_URL" ∨ v = "LLM_MODEL")
    (hagree : ∀ k, k ≠ v → env k = envAbsent k)
    (hset : env v = some "") (habsent : envAbsent v = none) :
    main env files resp = main envAbsent files resp ∧
    (main env files resp).output = none ∧ (main env files resp).requests = [] := by
  rcases hv with rfl | rfl | rfl
  · have h1 : strOptFalsy (env "LLM_API_KEY") = true := by simp [hset, strOptFalsy]
    have h1' : strOptFalsy (envAbsent "LLM_API_KEY") = true := by simp [habsent, strOptFalsy]
    refine ⟨?_, ?_, ?_⟩ <;> simp [main, h1, h1']
  · have ekey : env "LLM_API_KEY" = envAbsent "LLM_API_KEY" := hagree _ (by decide)
    by_cases h1 : strOptFalsy (env "LLM_API_KEY") = true
    · have h1' : strOptFalsy (envAbsent "LLM_API_KEY") = true := ekey ▸ h1
      refine ⟨?_, ?_, ?_⟩ <;> simp [main, h1, h1']
    · have h1' : ¬ strOptFalsy (envAbsent "LLM_API_KEY") = true := ekey ▸ h1
      have h2 : strOptFalsy (env "LLM_BASE_URL") = true := by simp [hset, strOptFalsy]
      have h2' : strOptFalsy (envAbsent "LLM_BASE_URL") = true := by
        simp [habsent, strOptFalsy]
      refine ⟨?_, ?_, ?_⟩ <;> simp [main, h1, h1', h2, h2']
  · have ekey : env "LLM_API_KEY" = envAbsent "LLM_API_KEY" := hagree _ (by decide)
    have ebase : env "LLM_BASE_URL" = envAbsent "LLM_BASE_URL" := hagree _ (by decide)
    by_cases h1 : strOptFalsy (env "LLM_API_KEY") = true
    · have h1' : strOptFalsy (envAbsent "LLM_API_KEY") = true := ekey ▸ h1
      refine ⟨?_, ?_, ?_⟩ <;> simp [main, h1, h1']
    · have h1' : ¬ strOptFalsy (envAbsent "LLM_API_KEY") = true := ekey ▸ h1
      by_cases h2 : strOptFalsy (env "LLM_BASE_URL") = true
      · have h2' : strOptFalsy (envAbsent "LLM_BASE_URL") = true := ebase ▸ h2
        refine ⟨?_, ?_, ?_⟩ <;> simp [main, h1, h1', h2, h2']
      · have h2' : ¬ strOptFalsy (envAbsent "LLM_BASE_URL") = true := ebase ▸ h2
        have h3 : strOptFalsy (env "LLM_MODEL") = true := by simp [hset, strOptFalsy]
        have h3' : strOptFalsy (envAbsent "LLM_MODEL") = true := by
          simp [habsent, strOptFalsy]
        refine ⟨?_, ?_, ?_⟩ <;> simp [main, h1, h1', h2, h2', h3, h3']

/-- C10 witness: `LLM_API_KEY` set to the empty string behaves exactly
like the empty environment. -/
theorem main_empty_var_like_absent_witness :
    main (fun k => if k = "LLM_API_KEY" then some "" else none) (fun _ => none)
        ⟨200, "", .obj []⟩ =
      main (fun _ => none) (fun _ => none) ⟨200, "", .obj []⟩ ∧
    (main (fun k => if k = "LLM_API_KEY" then some "" else none) (fun _ => none)
        ⟨200, "", .obj []⟩).output = none :=
  let h := main_empty_var_like_absent
    (fun k => if k = "LLM_API_KEY" then some "" else none) (fun _ => none)
    (fun _ => none) ⟨200, "", .obj []⟩ "LLM_API_KEY" (Or.inl rfl)
    (fun k hk => if_neg hk) (if_pos rfl) rfl
  ⟨h.1, h.2.1⟩

end AiReview
